import Mathlib

/-!
Shallow embedding of the `dbgonly!` macro from `src/lib.rs` of the
`dbgonly` crate, and proofs of the specification claims about it.

The crate exports a single `macro_rules!` macro with two build-mode
variants selected by `#[cfg(debug_assertions)]` /
`#[cfg(not(debug_assertions))]`, each with three arms:

  debug build (`#[cfg(debug_assertions)]`):
    ()                    => eprintln!("[{}:{}]", file!(), line!())
    ($val:expr $(,)?)     => match $val { tmp =>
                               { eprintln!("[{}:{}] {} = {:#?}",
                                   file!(), line!(), stringify!($val), &tmp);
                                 tmp } }
    ($($val:expr),+ $(,)?) => ($(dbgonly!($val)),+,)

  release build (`#[cfg(not(debug_assertions))]`):
    ()                    => {}
    ($val:expr $(,)?)     => match $val { tmp => tmp }
    ($($val:expr),+ $(,)?) => ($(dbgonly!($val)),+,)

The embedding models:
  * program state threaded through expression evaluation (`World`),
    with the standard-error stream as a list of records, one record
    per `eprintln!` call, plus a writability flag;
  * the fact that `eprintln!` panics when the write to stderr fails
    (`Outcome.panic` is a terminal, non-recoverable outcome);
  * Rust expressions as state transformers that may panic (`Expr`);
  * the Rust `Debug` trait with its alternate flag: `{:?}` is
    `RustDebug.fmt false`, `{:#?}` is `RustDebug.fmt true`;
  * `macro_rules` arm dispatch over a parsed argument list
    (`Invocation` / the top-level runners), with first-match-wins
    ordering: the empty arm, then the single-expression arm
    (which tolerates one trailing comma via `$(,)?`), then the
    multi-expression arm.
-/

namespace Dbgonly

/-- The world an expression runs in: the caller-visible program state
`prog`, the standard-error stream `stderr` (one entry per `eprintln!`
call, i.e. per emitted diagnostic record), and `stderrOk`, whether
writes to stderr succeed. -/
structure World (σ : Type) where
  prog : σ
  stderr : List String
  stderrOk : Bool
deriving DecidableEq, Repr

/-- Outcome of evaluating a Rust expression: a value and an updated
world, or a panic (terminal, not a recoverable error value). -/
inductive Outcome (σ α : Type) where
  | ok : α → World σ → Outcome σ α
  | panic : String → World σ → Outcome σ α
deriving DecidableEq, Repr

/-- A Rust expression of type `α`, over program state `σ`: evaluating
it transforms the world and yields a value or panics. -/
def Expr (σ α : Type) : Type := World σ → Outcome σ α

/-- `eprintln!` with an already-formatted payload: appends one record
to stderr, or panics if the stream is unwritable (the Rust macro
panics when writing to `io::stderr` fails). -/
def eprintln {σ : Type} (s : String) (w : World σ) : Outcome σ Unit :=
  if w.stderrOk then Outcome.ok () { w with stderr := w.stderr ++ [s] }
  else Outcome.panic "failed printing to stderr" w

/-- The Rust `Debug` trait: `fmt alt v` renders `v`; `alt = false` is
the `{:?}` formatter, `alt = true` the alternate `{:#?}` formatter. -/
class RustDebug (α : Type) where
  fmt : Bool → α → String

/-- The zero-argument diagnostic payload: `"[{}:{}]"` applied to
`file!()` and `line!()`. -/
def fmtLoc (file : String) (line : Nat) : String :=
  "[" ++ file ++ ":" ++ toString line ++ "]"

/-- The one-expression diagnostic payload:
`"[{}:{}] {} = {:#?}"` applied to `file!()`, `line!()`,
`stringify!($val)` and the rendered value. -/
def fmtVal (file : String) (line : Nat) (srcText rendered : String) : String :=
  "[" ++ file ++ ":" ++ toString line ++ "] " ++ srcText ++ " = " ++ rendered

/-- Debug build, zero-argument arm:
`eprintln!("[{}:{}]", file!(), line!())`. `file` and `line` are the
call site's, since `file!()`/`line!()` in the expansion resolve to the
invocation location. -/
def dbgonlyDebug0 {σ : Type} (file : String) (line : Nat) : Expr σ Unit :=
  fun w => eprintln (fmtLoc file line) w

/-- Debug build, single-expression arm:
`match $val { tmp => { eprintln!("[{}:{}] {} = {:#?}", file!(), line!(),
stringify!($val), &tmp); tmp } }`: evaluate `$val` to completion first,
then print (borrowing `&tmp`, with the `{:#?}` alternate formatter),
then return `tmp` itself. A panic from `$val` propagates untouched; a
failed write panics after `$val` has been evaluated. -/
def dbgonlyDebug1 {σ α : Type} [RustDebug α] (file : String) (line : Nat)
    (srcText : String) (e : Expr σ α) : Expr σ α := fun w =>
  match e w with
  | Outcome.panic m w1 => Outcome.panic m w1
  | Outcome.ok tmp w1 =>
    match eprintln (fmtVal file line srcText (RustDebug.fmt true tmp)) w1 with
    | Outcome.panic m w2 => Outcome.panic m w2
    | Outcome.ok _ w2 => Outcome.ok tmp w2

/-- Release build, zero-argument arm: `{}` — no effect, unit value. -/
def dbgonlyRelease0 {σ : Type} : Expr σ Unit := fun w => Outcome.ok () w

/-- Release build, single-expression arm: `match $val { tmp => tmp }` —
evaluate `$val` once and return it, no output. -/
def dbgonlyRelease1 {σ α : Type} (e : Expr σ α) : Expr σ α := fun w =>
  match e w with
  | Outcome.panic m w1 => Outcome.panic m w1
  | Outcome.ok tmp w1 => Outcome.ok tmp w1

/-- A representative universe of Rust values for instantiating the
macro's generic value position: machine-independent integers and
tuples (of any arity, so both `(1,)` and `(1, 2)` exist). -/
inductive Value where
  | int : Int → Value
  | tup : List Value → Value

/-- `n` spaces, as emitted by the `Formatter`'s pad adapter. -/
def spaces (n : Nat) : String := String.mk (List.replicate n ' ')

mutual

/-- Rust's `Debug` rendering of a `Value` at indentation `ind`:
`alt = false` is `{:?}` (compact: `1`, `(1,)`, `(1, 2)`),
`alt = true` is `{:#?}` (pretty: each tuple element on its own line,
indented four further spaces, with a trailing comma). -/
def Value.fmtAt (alt : Bool) (ind : Nat) : Value → String
  | Value.int n => toString n
  | Value.tup [] => "()"
  | Value.tup (v :: vs) =>
    if alt then
      "(\n" ++ Value.fmtElemsAlt (ind + 4) (v :: vs) ++ spaces ind ++ ")"
    else
      match vs with
      | [] => "(" ++ Value.fmtAt false ind v ++ ",)"
      | _ => "(" ++ Value.fmtSep ind (v :: vs) ++ ")"

/-- Pretty-mode tuple body: one line `<spaces><element>,` per element. -/
def Value.fmtElemsAlt (ind : Nat) : List Value → String
  | [] => ""
  | v :: vs =>
    spaces ind ++ Value.fmtAt true ind v ++ ",\n" ++ Value.fmtElemsAlt ind vs

/-- Compact-mode tuple body: elements joined by `, `. -/
def Value.fmtSep (ind : Nat) : List Value → String
  | [] => ""
  | [v] => Value.fmtAt false ind v
  | v :: vs => Value.fmtAt false ind v ++ ", " ++ Value.fmtSep ind vs

end

instance : RustDebug Value := ⟨fun alt v => Value.fmtAt alt 0 v⟩

/-- Rust's `Debug` for the integer primitives coincides with `Display`
and ignores the alternate flag. -/
instance : RustDebug Int := ⟨fun _ n => toString n⟩

/-- A parsed `dbgonly!(...)` invocation: the comma-separated argument
expressions, each paired with its `stringify!`-ed source text, and
whether the token list ends in a trailing comma. `macro_rules`
dispatch is by first match over the three arms: `()` matches an empty
list with no trailing comma; `($val:expr $(,)?)` matches exactly one
expression, trailing comma or not; `($($val:expr),+ $(,)?)` matches
one or more. -/
structure Invocation (σ α : Type) where
  args : List (String × Expr σ α)
  trailingComma : Bool

/-- Map over the value of an outcome. -/
def mapOutcome {σ α β : Type} (f : α → β) : Outcome σ α → Outcome σ β
  | Outcome.ok v w => Outcome.ok (f v) w
  | Outcome.panic m w => Outcome.panic m w

/-- The value the whole invocation yields: nothing (zero-argument
arm), a bare value (single-expression arm), or a tuple
(multi-expression arm). -/
inductive DbgResult (α : Type) where
  | unit : DbgResult α
  | single : α → DbgResult α
  | tuple : List α → DbgResult α
deriving DecidableEq, Repr

/-- The debug multi-expression expansion `($(dbgonly!($val)),+,)`:
each element goes through the single-expression arm, in left-to-right
tuple evaluation order, each threading the world (so each element's
diagnostic is written before the next element is evaluated). -/
def runArgsDebug {σ α : Type} [RustDebug α] (file : String) (line : Nat) :
    List (String × Expr σ α) → World σ → Outcome σ (List α)
  | [], w => Outcome.ok [] w
  | (t, e) :: rest, w =>
    match dbgonlyDebug1 file line t e w with
    | Outcome.panic m w1 => Outcome.panic m w1
    | Outcome.ok v w1 => mapOutcome (fun vs => v :: vs) (runArgsDebug file line rest w1)

/-- The release multi-expression expansion `($(dbgonly!($val)),+,)`:
each element goes through the release single-expression arm,
left to right, with no output. -/
def runArgsRelease {σ α : Type} :
    List (String × Expr σ α) → World σ → Outcome σ (List α)
  | [], w => Outcome.ok [] w
  | (_, e) :: rest, w =>
    match dbgonlyRelease1 e w with
    | Outcome.panic m w1 => Outcome.panic m w1
    | Outcome.ok v w1 => mapOutcome (fun vs => v :: vs) (runArgsRelease rest w1)

/-- The debug-build macro: `macro_rules` arm dispatch, first match
wins. An empty argument list takes the zero-argument arm; exactly one
expression (with or without a trailing comma, `$(,)?`) takes the
single-expression arm and yields the bare value; two or more take the
multi-expression arm and yield a tuple. -/
def dbgonlyDebug {σ α : Type} [RustDebug α] (file : String) (line : Nat)
    (inv : Invocation σ α) : World σ → Outcome σ (DbgResult α) := fun w =>
  match inv.args with
  | [] => mapOutcome (fun _ => DbgResult.unit) (dbgonlyDebug0 file line w)
  | [(t, e)] => mapOutcome DbgResult.single (dbgonlyDebug1 file line t e w)
  | args => mapOutcome DbgResult.tuple (runArgsDebug file line args w)

/-- The release-build macro: same arm dispatch, no output anywhere. -/
def dbgonlyRelease {σ α : Type} (inv : Invocation σ α) :
    World σ → Outcome σ (DbgResult α) := fun w =>
  match inv.args with
  | [] => mapOutcome (fun _ => DbgResult.unit) (dbgonlyRelease0 w)
  | [(_, e)] => mapOutcome DbgResult.single (dbgonlyRelease1 e w)
  | args => mapOutcome DbgResult.tuple (runArgsRelease args w)

/-! Concrete expressions and worlds used to instantiate the theorems. -/

/-- A pure expression: yields `v`, touches nothing. -/
def constE {σ α : Type} (v : α) : Expr σ α := fun w => Outcome.ok v w

/-- An effectful expression over a `Nat` program state: yields `v` and
increments an evaluation counter, so `prog` counts how many times it
has been evaluated. -/
def countE {α : Type} (v : α) : Expr Nat α :=
  fun w => Outcome.ok v { w with prog := w.prog + 1 }

/-- An expression that panics with message `m` after bumping the
evaluation counter. -/
def panicE {α : Type} (m : String) : Expr Nat α :=
  fun w => Outcome.panic m { w with prog := w.prog + 1 }

/-- Initial world: counter 0, empty stderr, writable. -/
def w0 : World Nat := ⟨0, [], true⟩

/-- Initial world with an unwritable stderr. -/
def wBad : World Nat := ⟨0, [], false⟩

/-- C1: in both build modes, invoking the facility on an expression
returns exactly the value the expression produced, unchanged: the
release arm yields the very value and world the expression yielded,
and the debug arm yields the same value with the program state `prog`
untouched (only a diagnostic record is appended to stderr). -/
theorem c1_inspect_identity {σ α : Type} [RustDebug α]
    (file : String) (line : Nat) (srcText : String) (e : Expr σ α)
    (w w' : World σ) (v : α)
    (he : e w = Outcome.ok v w') (hok : w'.stderrOk = true) :
    dbgonlyRelease1 e w = Outcome.ok v w' ∧
    dbgonlyDebug1 file line srcText e w =
      Outcome.ok v { w' with stderr :=
        w'.stderr ++ [fmtVal file line srcText (RustDebug.fmt true v)] } := by
  refine ⟨?_, ?_⟩ <;> simp [dbgonlyRelease1, dbgonlyDebug1, eprintln, he, hok]

/-- Witness for C1 at `x = 3 : Int`, in an initially clean world. -/
theorem c1_inspect_identity_witness :
    dbgonlyRelease1 (countE (3 : Int)) w0 = Outcome.ok 3 ⟨1, [], true⟩ ∧
    dbgonlyDebug1 "src/main.rs" 7 "x" (countE (3 : Int)) w0 =
      Outcome.ok 3 ⟨1, ["[src/main.rs:7] x = 3"], true⟩ := by
  exact c1_inspect_identity "src/main.rs" 7 "x" (countE (3 : Int))
    w0 ⟨1, [], true⟩ 3 rfl rfl

/-- C2: in debug mode, `dbgonly!(e)` evaluates `e` exactly once (the
resulting world is exactly `e`'s own output world, stderr apart),
returns the value `e` produced, and appends exactly one diagnostic
record of the form `[<file>:<line>] <source-text> = <rendering>` to
stderr, with the call site's `file` and `line`. -/
theorem c2_debug_single_contract {σ α : Type} [RustDebug α]
    (file : String) (line : Nat) (srcText : String) (e : Expr σ α)
    (w w' : World σ) (v : α)
    (he : e w = Outcome.ok v w') (hok : w'.stderrOk = true) :
    dbgonlyDebug1 file line srcText e w =
      Outcome.ok v { w' with stderr :=
        w'.stderr ++ [fmtVal file line srcText (RustDebug.fmt true v)] } := by
  simp [dbgonlyDebug1, eprintln, he, hok]

/-- Witness for C2: `a * 2` evaluating to `4`, with the evaluation
counter showing exactly one evaluation. -/
theorem c2_debug_single_contract_witness :
    dbgonlyDebug1 "src/main.rs" 2 "a * 2" (countE (4 : Int)) w0 =
      Outcome.ok 4 ⟨1, ["[src/main.rs:2] a * 2 = 4"], true⟩ := by
  exact c2_debug_single_contract "src/main.rs" 2 "a * 2" (countE (4 : Int))
    w0 ⟨1, [], true⟩ 4 rfl rfl

/-- C3: in release mode, `dbgonly!(e)` is the identity transform on
expressions: behavior-equivalent to the bare `e` (same value, same
world — hence `e` is evaluated exactly once and nothing is written to
stderr beyond what `e` itself does). -/
theorem c3_release_identity {σ α : Type} (e : Expr σ α) :
    dbgonlyRelease1 e = e := by
  funext w
  unfold dbgonlyRelease1
  cases e w <;> rfl

/-- C4: `dbgonly!(e1, e2)` returns the tuple of the two values in
both build modes (the multi-expression arms both expand to
`($(dbgonly!($val)),+,)` with left-to-right tuple evaluation). In
debug mode it runs the one-expression arm on each element left to
right: `e1`'s diagnostic record is already on stderr in the world
`e2` is evaluated in (hypothesis `he2`), and `e2`'s record is
appended after it, so exactly two records are emitted, `e1`'s first.
In release mode (hypothesis `he2r` evaluates `e2` directly in `e1`'s
output world, since no record is written) the same tuple of values
comes back with no output. -/
theorem c4_two_expressions {σ α : Type} [RustDebug α]
    (file : String) (line : Nat) (t1 t2 : String) (e1 e2 : Expr σ α)
    (w w1 w2 w2r : World σ) (v1 v2 v2r : α)
    (he1 : e1 w = Outcome.ok v1 w1) (hok1 : w1.stderrOk = true)
    (he2 : e2 { w1 with stderr :=
        w1.stderr ++ [fmtVal file line t1 (RustDebug.fmt true v1)] } =
      Outcome.ok v2 w2)
    (hok2 : w2.stderrOk = true)
    (he2r : e2 w1 = Outcome.ok v2r w2r) :
    dbgonlyDebug file line ⟨[(t1, e1), (t2, e2)], false⟩ w =
      Outcome.ok (DbgResult.tuple [v1, v2]) { w2 with stderr :=
        w2.stderr ++ [fmtVal file line t2 (RustDebug.fmt true v2)] } ∧
    dbgonlyRelease ⟨[(t1, e1), (t2, e2)], false⟩ w =
      Outcome.ok (DbgResult.tuple [v1, v2r]) w2r := by
  simp only [hok1] at he2
  refine ⟨?_, ?_⟩
  · simp [dbgonlyDebug, runArgsDebug, dbgonlyDebug1, eprintln, mapOutcome,
      he1, hok1, he2, hok2]
  · simp [dbgonlyRelease, runArgsRelease, dbgonlyRelease1, mapOutcome,
      he1, he2r]

/-- Witness for C4: `dbgonly!(1, 2)` returns `(1, 2)` in both modes —
with two diagnostic records in order in debug mode, with none in
release mode — each expression evaluated once. -/
theorem c4_two_expressions_witness :
    dbgonlyDebug "src/main.rs" 5 ⟨[("1", countE (1 : Int)), ("2", countE (2 : Int))], false⟩ w0 =
      Outcome.ok (DbgResult.tuple [1, 2])
        ⟨2, ["[src/main.rs:5] 1 = 1", "[src/main.rs:5] 2 = 2"], true⟩ ∧
    dbgonlyRelease ⟨[("1", countE (1 : Int)), ("2", countE (2 : Int))], false⟩ w0 =
      Outcome.ok (DbgResult.tuple [1, 2]) ⟨2, [], true⟩ := by
  exact c4_two_expressions "src/main.rs" 5 "1" "2"
    (countE (1 : Int)) (countE (2 : Int))
    w0 ⟨1, [], true⟩ ⟨2, ["[src/main.rs:5] 1 = 1"], true⟩ ⟨2, [], true⟩
    1 2 2 rfl rfl rfl rfl rfl

/-- C5: the zero-argument invocation in debug mode appends exactly one
record `[<file>:<line>]` (call-site location, no value text) to stderr
and yields no value (`DbgResult.unit`); in release mode it writes
nothing and yields no value. -/
theorem c5_zero_argument {σ α : Type} [RustDebug α]
    (file : String) (line : Nat) (w : World σ) (hok : w.stderrOk = true) :
    dbgonlyDebug (α := α) file line ⟨[], false⟩ w =
      Outcome.ok DbgResult.unit { w with stderr := w.stderr ++ [fmtLoc file line] } ∧
    dbgonlyRelease (α := α) ⟨[], false⟩ w = Outcome.ok DbgResult.unit w := by
  refine ⟨?_, ?_⟩ <;>
    simp [dbgonlyDebug, dbgonlyRelease, dbgonlyDebug0, dbgonlyRelease0,
      eprintln, mapOutcome, hok]

/-- Witness for C5 in an initially clean world. -/
theorem c5_zero_argument_witness :
    dbgonlyDebug (α := Int) "src/main.rs" 9 ⟨[], false⟩ w0 =
      Outcome.ok DbgResult.unit ⟨0, ["[src/main.rs:9]"], true⟩ ∧
    dbgonlyRelease (α := Int) ⟨[], false⟩ w0 = Outcome.ok DbgResult.unit w0 := by
  exact c5_zero_argument "src/main.rs" 9 w0 rfl

/-- C6: if the diagnostic write fails, the facility panics (a
terminal, non-recoverable outcome in this model — `eprintln!` panics
when writing to `io::stderr` fails) instead of continuing or returning
a recoverable error; and a panic raised by the inspected expression
itself propagates untouched, with its own message and world — the
facility neither catches, wraps, nor suppresses it. -/
theorem c6_failure_semantics {σ α : Type} [RustDebug α]
    (file : String) (line : Nat) (t1 t2 : String) (e1 e2 : Expr σ α)
    (w u w' u' : World σ) (v : α) (m : String)
    (he1 : e1 w = Outcome.ok v w') (hbad : w'.stderrOk = false)
    (he2 : e2 u = Outcome.panic m u') :
    dbgonlyDebug1 file line t1 e1 w =
      Outcome.panic "failed printing to stderr" w' ∧
    dbgonlyDebug1 file line t2 e2 u = Outcome.panic m u' := by
  refine ⟨?_, ?_⟩ <;> simp [dbgonlyDebug1, eprintln, he1, hbad, he2]

/-- Witness for C6: an unwritable stderr aborts, and an expression
panic (`"attempt to subtract with overflow"`) passes through. -/
theorem c6_failure_semantics_witness :
    dbgonlyDebug1 "src/main.rs" 4 "x" (countE (1 : Int)) wBad =
      Outcome.panic "failed printing to stderr" ⟨1, [], false⟩ ∧
    dbgonlyDebug1 "src/main.rs" 4 "y"
        (panicE (α := Int) "attempt to subtract with overflow") w0 =
      Outcome.panic "attempt to subtract with overflow" ⟨1, [], true⟩ := by
  exact c6_failure_semantics "src/main.rs" 4 "x" "y" (countE (1 : Int))
    (panicE "attempt to subtract with overflow")
    wBad w0 ⟨1, [], false⟩ ⟨1, [], true⟩ 1
    "attempt to subtract with overflow" rfl rfl rfl

/-- C7: a single expression with one trailing comma, `dbgonly!(1,)`,
matches the single-expression arm (`$val:expr $(,)?`), not the
multi-expression arm: in both build modes the invocation yields the
bare value (`DbgResult.single v`), not a one-element tuple. -/
theorem c7_trailing_comma_single {σ α : Type} [RustDebug α]
    (file : String) (line : Nat) (t : String) (e : Expr σ α)
    (w w' : World σ) (v : α)
    (he : e w = Outcome.ok v w') (hok : w'.stderrOk = true) :
    dbgonlyDebug file line ⟨[(t, e)], true⟩ w =
      Outcome.ok (DbgResult.single v) { w' with stderr :=
        w'.stderr ++ [fmtVal file line t (RustDebug.fmt true v)] } ∧
    dbgonlyRelease ⟨[(t, e)], true⟩ w = Outcome.ok (DbgResult.single v) w' := by
  refine ⟨?_, ?_⟩ <;>
    simp [dbgonlyDebug, dbgonlyRelease, dbgonlyDebug1, dbgonlyRelease1,
      eprintln, mapOutcome, he, hok]

/-- Witness for C7: `dbgonly!(1,)` returns the bare `1`. -/
theorem c7_trailing_comma_single_witness :
    dbgonlyDebug "src/main.rs" 6 ⟨[("1", countE (1 : Int))], true⟩ w0 =
      Outcome.ok (DbgResult.single 1) ⟨1, ["[src/main.rs:6] 1 = 1"], true⟩ ∧
    dbgonlyRelease ⟨[("1", countE (1 : Int))], true⟩ w0 =
      Outcome.ok (DbgResult.single 1) ⟨1, [], true⟩ := by
  exact c7_trailing_comma_single "src/main.rs" 6 "1" (countE (1 : Int))
    w0 ⟨1, [], true⟩ 1 rfl rfl

/-- C8: an explicit one-element tuple literal as the sole argument,
`dbgonly!((1,))`, goes through the single-expression arm and comes
back as exactly that one-element tuple value, in both build modes —
the facility performs no tuple-unwrapping of its own. -/
theorem c8_one_tuple_passthrough {σ : Type}
    (file : String) (line : Nat) (t : String) (e : Expr σ Value)
    (w w' : World σ) (v : Value)
    (he : e w = Outcome.ok (Value.tup [v]) w') (hok : w'.stderrOk = true) :
    dbgonlyDebug file line ⟨[(t, e)], false⟩ w =
      Outcome.ok (DbgResult.single (Value.tup [v])) { w' with stderr :=
        w'.stderr ++ [fmtVal file line t (RustDebug.fmt true (Value.tup [v]))] } ∧
    dbgonlyRelease ⟨[(t, e)], false⟩ w =
      Outcome.ok (DbgResult.single (Value.tup [v])) w' := by
  refine ⟨?_, ?_⟩ <;>
    simp [dbgonlyDebug, dbgonlyRelease, dbgonlyDebug1, dbgonlyRelease1,
      eprintln, mapOutcome, he, hok]

/-- Witness for C8: `dbgonly!((1,))` returns the 1-tuple `(1,)`
unchanged (its pretty rendering spans lines, but the value is
untouched). -/
theorem c8_one_tuple_passthrough_witness :
    dbgonlyDebug "src/main.rs" 3 ⟨[("(1,)", countE (Value.tup [Value.int 1]))], false⟩ w0 =
      Outcome.ok (DbgResult.single (Value.tup [Value.int 1]))
        ⟨1, ["[src/main.rs:3] (1,) = (\n    1,\n)"], true⟩ ∧
    dbgonlyRelease ⟨[("(1,)", countE (Value.tup [Value.int 1]))], false⟩ w0 =
      Outcome.ok (DbgResult.single (Value.tup [Value.int 1])) ⟨1, [], true⟩ := by
  exact c8_one_tuple_passthrough "src/main.rs" 3 "(1,)"
    (countE (Value.tup [Value.int 1])) w0 ⟨1, [], true⟩ (Value.int 1) rfl rfl

/-- C9: the debug arm renders the value with the alternate (`{:#?}`,
pretty) formatter — the emitted record embeds `Value.fmtAt true 0 v` —
and that rendering is multi-line-capable: on the structured value
`(1, 2)` the pretty rendering contains a newline while the compact
(`{:?}`) rendering does not. -/
theorem c9_pretty_rendering {σ : Type}
    (file : String) (line : Nat) (t : String) (e : Expr σ Value)
    (w w' : World σ) (v : Value)
    (he : e w = Outcome.ok v w') (hok : w'.stderrOk = true) :
    dbgonlyDebug1 file line t e w =
      Outcome.ok v { w' with stderr :=
        w'.stderr ++ [fmtVal file line t (Value.fmtAt true 0 v)] } ∧
    '\n' ∈ (Value.fmtAt true 0 (Value.tup [Value.int 1, Value.int 2])).data ∧
    '\n' ∉ (Value.fmtAt false 0 (Value.tup [Value.int 1, Value.int 2])).data := by
  refine ⟨?_, by decide, by decide⟩
  simp [dbgonlyDebug1, eprintln, he, hok]
  rfl

/-- Witness for C9: inspecting `(1, 2)` emits a record whose value
part spans three extra lines. -/
theorem c9_pretty_rendering_witness :
    dbgonlyDebug1 "src/main.rs" 8 "(1, 2)"
        (countE (Value.tup [Value.int 1, Value.int 2])) w0 =
      Outcome.ok (Value.tup [Value.int 1, Value.int 2])
        ⟨1, ["[src/main.rs:8] (1, 2) = (\n    1,\n    2,\n)"], true⟩ ∧
    '\n' ∈ (Value.fmtAt true 0 (Value.tup [Value.int 1, Value.int 2])).data ∧
    '\n' ∉ (Value.fmtAt false 0 (Value.tup [Value.int 1, Value.int 2])).data := by
  exact c9_pretty_rendering "src/main.rs" 8 "(1, 2)"
    (countE (Value.tup [Value.int 1, Value.int 2]))
    w0 ⟨1, [], true⟩ (Value.tup [Value.int 1, Value.int 2]) rfl rfl

/-- C10: the `match $val { tmp => ... }` arm evaluates the expression
to completion before any write: when the write fails, the panic's
world is exactly the expression's own post-evaluation world (its side
effects happened, exactly once); when the write succeeds, the arm
returns exactly the evaluated value and the expression's world with
one record appended — the value is never copied, re-evaluated or
replaced. -/
theorem c10_eval_before_write {σ α : Type} [RustDebug α]
    (file : String) (line : Nat) (t1 t2 : String) (e1 e2 : Expr σ α)
    (w u w' u' : World σ) (v1 v2 : α)
    (he1 : e1 w = Outcome.ok v1 w') (hbad : w'.stderrOk = false)
    (he2 : e2 u = Outcome.ok v2 u') (hok : u'.stderrOk = true) :
    dbgonlyDebug1 file line t1 e1 w =
      Outcome.panic "failed printing to stderr" w' ∧
    dbgonlyDebug1 file line t2 e2 u =
      Outcome.ok v2 { u' with stderr :=
        u'.stderr ++ [fmtVal file line t2 (RustDebug.fmt true v2)] } := by
  refine ⟨?_, ?_⟩ <;> simp [dbgonlyDebug1, eprintln, he1, hbad, he2, hok]

/-- Witness for C10: with the evaluation counter at 1 in both
outcomes, the failed-write panic still carries the expression's
completed side effect, and the successful write returns the value
itself. -/
theorem c10_eval_before_write_witness :
    dbgonlyDebug1 "src/main.rs" 10 "a" (countE (5 : Int)) wBad =
      Outcome.panic "failed printing to stderr" ⟨1, [], false⟩ ∧
    dbgonlyDebug1 "src/main.rs" 10 "b" (countE (6 : Int)) w0 =
      Outcome.ok 6 ⟨1, ["[src/main.rs:10] b = 6"], true⟩ := by
  exact c10_eval_before_write "src/main.rs" 10 "a" "b"
    (countE (5 : Int)) (countE (6 : Int))
    wBad w0 ⟨1, [], false⟩ ⟨1, [], true⟩ 5 6 rfl rfl rfl rfl

end Dbgonly
